import Mathlib

/-!
Verification of the build-configuration resolver in
`src/trackformer/models/ops/setup_settings.py`.

The module has two parts:

* `_verify_cuda_environment()` — inspects the host platform and the torch/CUDA
  runtime, prints diagnostics, and returns a plain `bool` verdict;
* `get_extensions_settings()` — imports the torch C++-extension helpers,
  `assert`s the verdict of the verifier, enumerates source files, and dispatches on
  the platform to build a list of extension descriptors.

The embedding below makes the external runtime explicit as a `RuntimeState`
record (torch importability, `torch.cuda.is_available()`,
`torch.backends.cuda.is_built()`, `torch.version.cuda`, the `CUDA_HOME` /
`CUDA_PATH` environment variables, the `CUDA_HOME` default of torch, a filesystem
existence oracle, the `nvcc --version` subprocess outcome, and the torch
include/library path lists).  Printing is modelled by returning the list of
printed lines; a raised Python exception is modelled by `Except.error`.
-/

namespace Trackformer

/-- Python truthiness of `os.environ.get(..)` / `torch.version.cuda`-style
values: `None` and the empty string are falsy, every other string is truthy. -/
def optTruthy : Option String → Bool
  | none => false
  | some s => !s.isEmpty

/-- Python `a or b` on optional strings: the left operand if it is truthy,
otherwise the right operand (which is returned even if falsy). -/
def pyOr (a b : Option String) : Option String :=
  if optTruthy a then a else b

/-- `needle` occurs as a contiguous run inside `hay` (Python `needle in hay`
on strings, working over the character list). -/
def charsContain (needle : List Char) : List Char → Bool
  | [] => needle.isEmpty
  | c :: rest => needle.isPrefixOf (c :: rest) || charsContain needle rest

/-- Python `needle in hay` substring test on strings. -/
def strContains (hay needle : String) : Bool :=
  charsContain needle.toList hay.toList

/-- The external runtime state an invocation observes: everything
`setup_settings.py` queries from `torch`, the environment and the filesystem.
Mirrors the ToolkitInfo of the spec plus the torch path-query helpers. -/
structure RuntimeState where
  /-- `import torch` (and `from torch.utils.cpp_extension import ...`)
  succeeds. -/
  torch_importable : Bool
  /-- `torch.cuda.is_available()`. -/
  cuda_available : Bool
  /-- `torch.backends.cuda.is_built()`. -/
  cuda_is_built : Bool
  /-- `torch.version.cuda` (may be `None` or empty). -/
  torch_version_cuda : Option String
  /-- `os.environ.get("CUDA_HOME")`. -/
  env_CUDA_HOME : Option String
  /-- `os.environ.get("CUDA_PATH")`. -/
  env_CUDA_PATH : Option String
  /-- `CUDA_HOME` imported from `torch.utils.cpp_extension` (may be `None`). -/
  torch_CUDA_HOME : Option String
  /-- `Path(p).exists()` filesystem oracle. -/
  file_exists : String → Bool
  /-- Outcome of `os.popen(f..nvcc --version..).read()`: either the captured
  stdout text or a raised exception. -/
  nvcc_version_query : Except Unit String
  /-- `include_paths()` from `torch.utils.cpp_extension`. -/
  include_paths : List String
  /-- `library_paths(..)` from `torch.utils.cpp_extension` (the module calls it
  as `library_paths(device_type="cuda")` on Linux and `library_paths(cuda=True)`
  on Windows; both return the torch library directory list). -/
  library_paths : List String

/-- The source files found by globbing, already made relative via `rel`:
`cpu_sources` models `[rel(p) for p in SRC_CPU.glob("*.cpp")]` and
`cuda_sources` models `[rel(p) for p in SRC_CUDA.glob("*.cu")]`. -/
structure SourceTree where
  cpu_sources : List String
  cuda_sources : List String

/-- `str(SRC_BASE)` where `SRC_BASE = ROOT / "src" / "ha4detr"`; the concrete
root prefix is irrelevant to every claim, so it is kept abstract as a fixed
string. -/
def SRC_BASE_STR : String := "ROOT/src/ha4detr"

/-- `str(SRC_BASE.resolve())` — the absolute form used by the Windows branch;
distinct from `SRC_BASE_STR` as in the source. -/
def SRC_BASE_RESOLVED : String := "/ROOT/src/ha4detr"

/-- The fixed message of the `assert` in `get_extensions_settings`. -/
def ASSERT_MSG : String :=
  "You cannot run this build on this system - you would need to update it to match requirement!"

/-- The Python `AttributeError` text raised when `Path.relative_to` is applied
to a plain string element of `cpu_source_paths` (quotes elided). -/
def ATTR_MSG : String := "str object has no attribute relative_to"

/-- Printed when the platform is outside Windows/Linux (check 1, soft-pass). -/
def MSG_UNSUPPORTED (system : String) : String :=
  "Unsupported platform " ++ system ++ " to build this on with CUDA support. " ++
    "ha4detr only supports building on Windows or Linux with CUDA."

/-- Printed when the torch import fails (check 2). -/
def MSG_NO_TORCH : String := "PyTorch must be installed BEFORE building ha4detr."

/-- Printed when no CUDA device is available (check 3). -/
def MSG_NO_CUDA : String :=
  "PyTorch reports that CUDA is NOT available on this system. Cannot build CUDA extension."

/-- Printed when torch was built without CUDA (check 4). -/
def MSG_NOT_BUILT : String :=
  "Your PyTorch build was compiled WITHOUT CUDA. Install a CUDA-enabled PyTorch distribution."

/-- Printed when `torch.version.cuda` is falsy (check 5). -/
def MSG_NO_VERSION : String :=
  "Torch does not expose a valid CUDA version (torch.version.cuda). Cannot safely build."

/-- Printed when no toolkit home resolves (check 6). -/
def MSG_HOME_NOT_SET : String :=
  "CUDA_HOME / CUDA_PATH is not set. Please set it to your local CUDA toolkit path."

/-- Printed when nvcc is missing (check 7), mentioning the probed path. -/
def MSG_NVCC_NOT_FOUND (p : String) : String :=
  "nvcc not found at expected path: " ++ p

/-- Second line printed when nvcc is missing (check 7). -/
def MSG_INCOMPLETE : String := "Your CUDA installation is incomplete or incorrect."

/-- Final success print of the verifier. -/
def MSG_OK : String := "CUDA environment OK"

/-- The version-mismatch warning block (check 8, warning only). -/
def warning_lines (torch_cuda output : String) : List String :=
  ["*************************************************************",
   "* WARNING: CUDA version mismatch between PyTorch and system *",
   "* This may still work, but is not guaranteed.               *",
   "* Torch CUDA: " ++ torch_cuda,
   "* nvcc --version output: " ++ output,
   "*************************************************************"]

/-- `exe_postfix = "nvcc.exe" if _IS_WINDOWS_BUILD else "nvcc"`; the module
constant `_IS_WINDOWS_BUILD` equals `platform.system() == "Windows"`. -/
def exeSuffix (system : String) : String :=
  if system == "Windows" then "nvcc.exe" else "nvcc"

/-- `os.environ.get("CUDA_HOME") or os.environ.get("CUDA_PATH") or CUDA_HOME`:
first truthy value wins, the torch default is returned last even if falsy. -/
def resolved_cuda_home (st : RuntimeState) : Option String :=
  pyOr (pyOr st.env_CUDA_HOME st.env_CUDA_PATH) st.torch_CUDA_HOME

/-- `Path(cuda_home) / "bin" / exe_postfix`, rendered with "/" separators. -/
def nvcc_path (system : String) (cuda_home : String) : String :=
  cuda_home ++ "/bin/" ++ exeSuffix system

/-- Outcome of `_verify_cuda_environment`: the returned bool and the lines
printed on the way (the code communicates reasons only by printing). -/
structure VerifyResult where
  ok : Bool
  printed : List String
deriving DecidableEq

/-- Shallow embedding of `_verify_cuda_environment()`.  The if-chain mirrors
the early returns of the source, in source order: platform gate (soft-pass), torch
import, `torch.cuda.is_available()`, `torch.backends.cuda.is_built()`,
`torch.version.cuda` truthiness, toolkit-home resolution, nvcc existence, and
the warning-only version comparison before `return True`. -/
def verify_cuda_environment (system : String) (st : RuntimeState) : VerifyResult :=
  if system != "Windows" && system != "Linux" then
    ⟨true, [MSG_UNSUPPORTED system]⟩
  else if !st.torch_importable then
    ⟨false, [MSG_NO_TORCH]⟩
  else if !st.cuda_available then
    ⟨false, [MSG_NO_CUDA]⟩
  else if !st.cuda_is_built then
    ⟨false, [MSG_NOT_BUILT]⟩
  else if !optTruthy st.torch_version_cuda then
    ⟨false, [MSG_NO_VERSION]⟩
  else
    let cuda_home := resolved_cuda_home st
    if !optTruthy cuda_home then
      ⟨false, [MSG_HOME_NOT_SET]⟩
    else
      let nvcc := nvcc_path system (cuda_home.getD "")
      if !st.file_exists nvcc then
        ⟨false, [MSG_NVCC_NOT_FOUND nvcc, MSG_INCOMPLETE]⟩
      else
        let torch_cuda := st.torch_version_cuda.getD ""
        let torch_major := (torch_cuda.splitOn ".").headD ""
        let output :=
          match st.nvcc_version_query with
          | Except.ok s => s.toLower
          | Except.error _ => ""
        let warns :=
          if !strContains output torch_major then warning_lines torch_cuda output else []
        ⟨true, warns ++ [MSG_OK]⟩

/-- One element of an `include_dirs` list.  The Linux branch passes
`include_dirs=[local_includes, include_dirs]` where the second element is
itself the whole `include_paths()` list (a nested list inside the list), while
the Windows branch flattens; the sum distinguishes the two shapes. -/
inductive IncludeEntry where
  | single (p : String)
  | nested (ps : List String)
deriving DecidableEq

/-- A `CUDAExtension` / `CppExtension` descriptor as constructed by the
module: `is_cuda` records which constructor was used. -/
structure Extension where
  name : String
  is_cuda : Bool
  sources : List String
  include_dirs : List IncludeEntry
  library_dirs : List String
  extra_link_args : List String
  cxx_args : List String
  nvcc_args : List String
deriving DecidableEq

/-- The `usesAccelerator` field of the spec: true exactly for a `CUDAExtension`
carrying accelerator sources. -/
def Extension.usesAccelerator (e : Extension) : Bool := e.is_cuda

/-- `_get_linux_settings()`: a single `CUDAExtension` over all sources, with
`include_dirs=[local_includes, include_dirs]` (second element the un-flattened
`include_paths()` list), torch library dirs, the rpath link flag, and gcc-style
flags for both toolchains. -/
def linux_extension (st : RuntimeState) (all_sources : List String) : Extension :=
  { name := "ha4detr._hungarian"
    is_cuda := true
    sources := all_sources
    include_dirs := [IncludeEntry.single SRC_BASE_STR, IncludeEntry.nested st.include_paths]
    library_dirs := st.library_paths
    extra_link_args := ["-Wl,-rpath,$ORIGIN/../torch/lib"]
    cxx_args := ["-D_GLIBCXX_USE_CXX11_ABI=1", "-std=c++17"]
    nvcc_args := ["-D_GLIBCXX_USE_CXX11_ABI=1", "-std=c++17"] }

/-- `_get_windows_settings()`: a single `CUDAExtension` over all sources, with
`include_dirs = [local_include] + torch_includes` flattened into one list of
path strings, torch library dirs, and MSVC-style flag syntax. -/
def windows_extension (st : RuntimeState) (all_sources : List String) : Extension :=
  { name := "ha4detr._hungarian"
    is_cuda := true
    sources := all_sources
    include_dirs := IncludeEntry.single SRC_BASE_RESOLVED :: st.include_paths.map IncludeEntry.single
    library_dirs := st.library_paths
    extra_link_args := []
    cxx_args := ["/std:c++17", "/Zc:__cplusplus"]
    nvcc_args := ["-std=c++17", "-Xcompiler=/std:c++17", "-Xcompiler=/Zc:__cplusplus"] }

/-- The `CppExtension` of the Darwin branch.  Its `sources` comprehension
`[str(p.relative_to(ROOT)) for p in cpu_source_paths]` only completes when
`cpu_source_paths` is empty (each `p` is a relative-path string, and `str` has
no `relative_to`), so the descriptor that can actually be returned has empty
sources. -/
def darwin_extension : Extension :=
  { name := "ha4detr._hungarian"
    is_cuda := false
    sources := []
    include_dirs := [IncludeEntry.single SRC_BASE_STR]
    library_dirs := []
    extra_link_args := []
    cxx_args := ["-D_GLIBCXX_USE_CXX11_ABI=1", "-std=c++17"]
    nvcc_args := ["-D_GLIBCXX_USE_CXX11_ABI=1", "-std=c++17"] }

/-- A Python exception escaping `get_extensions_settings`. -/
inductive BuildError where
  /-- The `from torch.utils.cpp_extension import ...` at the top fails. -/
  | importError
  /-- The `assert _verify_cuda_environment()` fails with its fixed message. -/
  | assertionError (msg : String)
  /-- `p.relative_to(ROOT)` on a string element of `cpu_source_paths`. -/
  | attributeError (msg : String)
deriving DecidableEq

/-- What one call of `get_extensions_settings` did: its result (descriptor
list, or the exception that escaped) and whether `_verify_cuda_environment`
was ever entered. -/
structure ResolveOutcome where
  result : Except BuildError (List Extension)
  verifier_invoked : Bool

/-- Shallow embedding of `get_extensions_settings()`: the torch import comes
first (an unimportable runtime raises before the verifier runs), then the
`assert` on the verdict of the verifier with its fixed message, then the platform
dispatch: `_IS_WINDOWS_BUILD` first, then "Linux", then the Darwin
`CppExtension` branch (which raises `AttributeError` as soon as
`cpu_source_paths` is non-empty), and `[]` for every other platform. -/
def get_extensions_settings (system : String) (st : RuntimeState) (fs : SourceTree) :
    ResolveOutcome :=
  if !st.torch_importable then
    ⟨Except.error BuildError.importError, false⟩
  else if !(verify_cuda_environment system st).ok then
    ⟨Except.error (BuildError.assertionError ASSERT_MSG), true⟩
  else
    let all_sources := fs.cpu_sources ++ fs.cuda_sources
    if system == "Windows" then
      ⟨Except.ok [windows_extension st all_sources], true⟩
    else if system == "Linux" then
      ⟨Except.ok [linux_extension st all_sources], true⟩
    else if system == "Darwin" then
      if fs.cpu_sources.isEmpty then
        ⟨Except.ok [darwin_extension], true⟩
      else
        ⟨Except.error (BuildError.attributeError ATTR_MSG), true⟩
    else
      ⟨Except.ok [], true⟩

/-- A fully healthy CUDA environment, used to instantiate witnesses. -/
def st_good : RuntimeState :=
  { torch_importable := true
    cuda_available := true
    cuda_is_built := true
    torch_version_cuda := some "12.1"
    env_CUDA_HOME := some "/usr/local/cuda"
    env_CUDA_PATH := none
    torch_CUDA_HOME := none
    file_exists := fun _ => true
    nvcc_version_query := Except.ok "Cuda compilation tools, release 12.1, V12.1.105"
    include_paths := ["/torch/include"]
    library_paths := ["/torch/lib"] }

/-- A runtime whose device query fails (`torch.cuda.is_available()` False). -/
def st_no_device : RuntimeState := { st_good with cuda_available := false }

/-- A runtime where torch itself cannot be imported. -/
def st_no_torch : RuntimeState := { st_good with torch_importable := false }

/-- A runtime where the resolved toolkit home has no nvcc anywhere. -/
def st_no_nvcc : RuntimeState := { st_good with file_exists := fun _ => false }

/-- Torch reports CUDA "12.1" while nvcc reports 11.8 — the mismatch case. -/
def st_mismatch : RuntimeState :=
  { st_good with nvcc_version_query := Except.ok "Cuda compilation tools, release 11.8, V11.8.89" }

/-- The `nvcc --version` subprocess raises. -/
def st_query_exc : RuntimeState := { st_good with nvcc_version_query := Except.error () }

/-- Both override environment variables are set to distinct truthy values. -/
def st_both_env : RuntimeState :=
  { st_good with
    env_CUDA_HOME := some "/env/cuda_home"
    env_CUDA_PATH := some "/env/cuda_path"
    torch_CUDA_HOME := some "/torch/default" }

/-- No toolkit home resolves anywhere (both variables unset, no default). -/
def st_no_home : RuntimeState :=
  { st_good with env_CUDA_HOME := none, env_CUDA_PATH := none, torch_CUDA_HOME := none }

/-- A source tree with one CPU and one CUDA source file. -/
def fs_sample : SourceTree := ⟨["src/ha4detr/cpu/hungarian.cpp"], ["src/ha4detr/cuda/hungarian.cu"]⟩

/-- A source tree with no CPU sources. -/
def fs_no_cpu : SourceTree := ⟨[], ["src/ha4detr/cuda/hungarian.cu"]⟩

deriving instance DecidableEq for Except

/-! ### Helper lemmas -/

theorem beq_false_of_ne {a b : String} (h : a ≠ b) : (a == b) = false :=
  beq_eq_false_iff_ne.mpr h

/-- Every character list is a Boolean prefix of itself. -/
theorem isPrefixOf_self (l : List Char) : l.isPrefixOf l = true := by
  induction l with
  | nil => rfl
  | cons c rest ih => simp [List.isPrefixOf, ih]

/-- A list is a contiguous run of any list that ends with it. -/
theorem charsContain_append (tail : List Char) :
    ∀ pre : List Char, charsContain tail (pre ++ tail) = true := by
  intro pre
  induction pre with
  | nil =>
    cases tail with
    | nil => rfl
    | cons c rest =>
      simp only [List.nil_append, charsContain, Bool.or_eq_true]
      exact Or.inl (isPrefixOf_self (c :: rest))
  | cons c pre ih =>
    simp only [List.cons_append, charsContain, Bool.or_eq_true]
    exact Or.inr ih

/-- Appending on the left preserves the substring test: `p` occurs in
`s ++ p`. -/
theorem strContains_append (s p : String) : strContains (s ++ p) p = true := by
  unfold strContains
  rw [show (s ++ p).toList = s.toList ++ p.toList from String.data_append s p]
  exact charsContain_append p.toList s.toList

/-- The missing-nvcc diagnostic mentions the probed path verbatim. -/
theorem msg_nvcc_mentions_path (p : String) :
    strContains (MSG_NVCC_NOT_FOUND p) p = true :=
  strContains_append "nvcc not found at expected path: " p

/-! ### Claim theorems -/

/-- C8: `_verify_cuda_environment` performs its checks in the specified order
with short-circuiting.  A platform outside Windows/Linux yields the soft-pass
result before any runtime field is consulted (the result is a fixed value for
every runtime state); on Linux/Windows, torch importability, device
availability, the CUDA-build flag, and a truthy version string are checked in
that order, each failure immediately producing `ok = false` with its own
diagnostic, independently of every later field of the state. -/
theorem C8_verifier_check_order (system : String) (st : RuntimeState) :
    (system ≠ "Windows" → system ≠ "Linux" →
      verify_cuda_environment system st = ⟨true, [MSG_UNSUPPORTED system]⟩) ∧
    ((system = "Linux" ∨ system = "Windows") →
      (st.torch_importable = false →
        verify_cuda_environment system st = ⟨false, [MSG_NO_TORCH]⟩) ∧
      (st.torch_importable = true → st.cuda_available = false →
        verify_cuda_environment system st = ⟨false, [MSG_NO_CUDA]⟩) ∧
      (st.torch_importable = true → st.cuda_available = true →
        st.cuda_is_built = false →
        verify_cuda_environment system st = ⟨false, [MSG_NOT_BUILT]⟩) ∧
      (st.torch_importable = true → st.cuda_available = true →
        st.cuda_is_built = true → optTruthy st.torch_version_cuda = false →
        verify_cuda_environment system st = ⟨false, [MSG_NO_VERSION]⟩)) := by
  constructor
  · intro h1 h2
    have hc : (system != "Windows" && system != "Linux") = true := by
      simp [bne_iff_ne, h1, h2]
    simp [verify_cuda_environment, hc]
  · rintro (h | h) <;> subst h <;>
      exact ⟨fun h2 => by simp [verify_cuda_environment, h2],
        fun h2 h3 => by simp [verify_cuda_environment, h2, h3],
        fun h2 h3 h4 => by simp [verify_cuda_environment, h2, h3, h4],
        fun h2 h3 h4 h5 => by simp [verify_cuda_environment, h2, h3, h4, h5]⟩

/-- C8 witness: on Darwin the soft-pass is returned without consulting the
runtime, and on Linux a missing device short-circuits with its own reason. -/
theorem C8_verifier_check_order_witness :
    verify_cuda_environment "Darwin" st_no_torch = ⟨true, [MSG_UNSUPPORTED "Darwin"]⟩ ∧
    verify_cuda_environment "Linux" st_no_device = ⟨false, [MSG_NO_CUDA]⟩ :=
  ⟨(C8_verifier_check_order "Darwin" st_no_torch).1 (by decide) (by decide),
   ((C8_verifier_check_order "Linux" st_no_device).2 (Or.inl rfl)).2.1 rfl rfl⟩

/-- C5: toolkit-home resolution tries `CUDA_HOME`, then `CUDA_PATH`, then the
torch-reported default, the first truthy value winning; if the resolved value
is not truthy, verification (having passed checks 1–5) returns `ok = false`
with the toolkit-home-not-set diagnostic. -/
theorem C5_toolkit_home_precedence (st : RuntimeState) :
    (optTruthy st.env_CUDA_HOME = true → resolved_cuda_home st = st.env_CUDA_HOME) ∧
    (optTruthy st.env_CUDA_HOME = false → optTruthy st.env_CUDA_PATH = true →
      resolved_cuda_home st = st.env_CUDA_PATH) ∧
    (optTruthy st.env_CUDA_HOME = false → optTruthy st.env_CUDA_PATH = false →
      resolved_cuda_home st = st.torch_CUDA_HOME) ∧
    (∀ system, (system = "Linux" ∨ system = "Windows") →
      st.torch_importable = true → st.cuda_available = true →
      st.cuda_is_built = true → optTruthy st.torch_version_cuda = true →
      optTruthy (resolved_cuda_home st) = false →
      verify_cuda_environment system st = ⟨false, [MSG_HOME_NOT_SET]⟩) := by
  refine ⟨fun h1 => ?_, fun h1 h2 => ?_, fun h1 h2 => ?_, ?_⟩
  · simp [resolved_cuda_home, pyOr, h1]
  · simp [resolved_cuda_home, pyOr, h1, h2]
  · simp [resolved_cuda_home, pyOr, h1, h2]
  · rintro system (h | h) h2 h3 h4 h5 h6 <;> subst h <;>
      simp [verify_cuda_environment, h2, h3, h4, h5, h6]

/-- C5 witness: with both variables set, `CUDA_HOME` wins; with neither truthy
and no torch default, verification fails with the home-not-set reason. -/
theorem C5_toolkit_home_precedence_witness :
    resolved_cuda_home st_both_env = some "/env/cuda_home" ∧
    verify_cuda_environment "Linux" st_no_home = ⟨false, [MSG_HOME_NOT_SET]⟩ :=
  ⟨(C5_toolkit_home_precedence st_both_env).1 (by decide),
   (C5_toolkit_home_precedence st_no_home).2.2.2 "Linux" (Or.inl rfl)
     rfl rfl rfl (by decide) (by decide)⟩

/-- C7: on Linux/Windows, when the toolkit home resolves but no compiler
executable exists at `<toolkitHome>/bin/<exe>` (with the platform-specific
executable suffix), verification returns `ok = false` and its diagnostic
mentions that expected path. -/
theorem C7_missing_compiler (system : String) (st : RuntimeState)
    (hsys : system = "Linux" ∨ system = "Windows")
    (h2 : st.torch_importable = true) (h3 : st.cuda_available = true)
    (h4 : st.cuda_is_built = true) (h5 : optTruthy st.torch_version_cuda = true)
    (h6 : optTruthy (resolved_cuda_home st) = true)
    (h7 : st.file_exists (nvcc_path system ((resolved_cuda_home st).getD "")) = false) :
    verify_cuda_environment system st =
      ⟨false, [MSG_NVCC_NOT_FOUND (nvcc_path system ((resolved_cuda_home st).getD "")),
               MSG_INCOMPLETE]⟩ ∧
    strContains (MSG_NVCC_NOT_FOUND (nvcc_path system ((resolved_cuda_home st).getD "")))
      (nvcc_path system ((resolved_cuda_home st).getD "")) = true := by
  refine ⟨?_, msg_nvcc_mentions_path _⟩
  rcases hsys with h | h <;> subst h <;>
    simp [verify_cuda_environment, h2, h3, h4, h5, h6, h7]

/-- C7 witness: a concrete environment whose resolved home has no `nvcc`
fails verification, naming `/usr/local/cuda/bin/nvcc` in its diagnostic. -/
theorem C7_missing_compiler_witness :
    verify_cuda_environment "Linux" st_no_nvcc =
      ⟨false, [MSG_NVCC_NOT_FOUND "/usr/local/cuda/bin/nvcc", MSG_INCOMPLETE]⟩ ∧
    strContains (MSG_NVCC_NOT_FOUND "/usr/local/cuda/bin/nvcc")
      "/usr/local/cuda/bin/nvcc" = true :=
  C7_missing_compiler "Linux" st_no_nvcc (Or.inl rfl) rfl rfl rfl
    (by decide) (by decide) rfl

/-- Checks 1–7 of the verifier pass: supported platform, importable torch, an
available device, a CUDA-enabled build, a truthy version string, a truthy
resolved toolkit home, and an existing compiler executable.  Says nothing
about the `nvcc --version` query of check 8. -/
def passes_checks_1_to_7 (system : String) (st : RuntimeState) : Prop :=
  (system = "Linux" ∨ system = "Windows") ∧
  st.torch_importable = true ∧ st.cuda_available = true ∧ st.cuda_is_built = true ∧
  optTruthy st.torch_version_cuda = true ∧
  optTruthy (resolved_cuda_home st) = true ∧
  st.file_exists (nvcc_path system ((resolved_cuda_home st).getD "")) = true

/-- C6: the version-compatibility comparison of check 8 never affects the
verdict — every environment passing checks 1–7 verifies `ok = true` whatever
the `nvcc --version` outcome is (the query field of the state is unconstrained, so
a raised exception is swallowed too); concretely, with torch CUDA "12.1"
against an nvcc banner reporting 11.8 the verdict is still `ok = true` and the
resolved descriptor is a non-empty extension list, and the verdict is also
`ok = true` when the query raises. -/
theorem C6_version_check_warning_only :
    (∀ system st, passes_checks_1_to_7 system st →
      (verify_cuda_environment system st).ok = true) ∧
    (verify_cuda_environment "Linux" st_mismatch).ok = true ∧
    (get_extensions_settings "Linux" st_mismatch fs_sample).result =
      Except.ok [linux_extension st_mismatch (fs_sample.cpu_sources ++ fs_sample.cuda_sources)] ∧
    [linux_extension st_mismatch (fs_sample.cpu_sources ++ fs_sample.cuda_sources)] ≠
      ([] : List Extension) ∧
    (verify_cuda_environment "Linux" st_query_exc).ok = true := by
  refine ⟨?_, by decide, rfl, by decide, by decide⟩
  rintro system st ⟨h | h, h2, h3, h4, h5, h6, h7⟩ <;> subst h <;>
    simp [verify_cuda_environment, h2, h3, h4, h5, h6, h7]

/-- C6 witness: the universally quantified part applied to a healthy concrete
environment. -/
theorem C6_version_check_warning_only_witness :
    (verify_cuda_environment "Linux" st_good).ok = true :=
  C6_version_check_warning_only.1 "Linux" st_good
    ⟨Or.inl rfl, rfl, rfl, rfl, by decide, by decide, rfl⟩

/-- C3: a descriptor is emitted only when the verifier returned `ok = true`
for that invocation — whenever verification fails, `get_extensions_settings`
never produces any descriptor list (it raises), and every emitted extension
with `usesAccelerator = true` comes from an invocation whose verification
succeeded. -/
theorem C3_accelerator_requires_verification (system : String) (st : RuntimeState)
    (fs : SourceTree) :
    ((verify_cuda_environment system st).ok = false →
      ∀ exts, (get_extensions_settings system st fs).result ≠ Except.ok exts) ∧
    (∀ exts e, (get_extensions_settings system st fs).result = Except.ok exts →
      e ∈ exts → e.usesAccelerator = true →
      (verify_cuda_environment system st).ok = true) := by
  cases himp : st.torch_importable with
  | false =>
    refine ⟨fun _ exts => ?_, fun exts e hres _ _ => ?_⟩ <;>
      simp [get_extensions_settings, himp] at *
  | true =>
    cases hok : (verify_cuda_environment system st).ok with
    | false =>
      refine ⟨fun _ exts => ?_, fun exts e hres _ _ => ?_⟩ <;>
        simp [get_extensions_settings, himp, hok] at *
    | true =>
      exact ⟨fun hcontra => by simp at hcontra,
        fun _ _ _ _ _ => rfl⟩

/-- C3 witness: applied to a Linux invocation whose device query fails — no
descriptor list `exts` is returned (checked at `exts = []`). -/
theorem C3_accelerator_requires_verification_witness :
    (get_extensions_settings "Linux" st_no_device fs_sample).result ≠ Except.ok [] :=
  (C3_accelerator_requires_verification "Linux" st_no_device fs_sample).1 (by decide) []

/-- C10: the Linux and Windows descriptors disagree on include-dir shape: the
`include_dirs` of the Linux extension is the two-element list whose second element
is the entire `include_paths()` list nested as a single element, while the
Windows extension flattens the local include and the runtime include paths
into one list of path strings. -/
theorem C10_include_dir_shape (st : RuntimeState) (fs : SourceTree)
    (himp : st.torch_importable = true)
    (hok_l : (verify_cuda_environment "Linux" st).ok = true)
    (hok_w : (verify_cuda_environment "Windows" st).ok = true) :
    (get_extensions_settings "Linux" st fs).result =
      Except.ok [linux_extension st (fs.cpu_sources ++ fs.cuda_sources)] ∧
    (linux_extension st (fs.cpu_sources ++ fs.cuda_sources)).include_dirs =
      [IncludeEntry.single SRC_BASE_STR, IncludeEntry.nested st.include_paths] ∧
    (get_extensions_settings "Windows" st fs).result =
      Except.ok [windows_extension st (fs.cpu_sources ++ fs.cuda_sources)] ∧
    (windows_extension st (fs.cpu_sources ++ fs.cuda_sources)).include_dirs =
      IncludeEntry.single SRC_BASE_RESOLVED :: st.include_paths.map IncludeEntry.single := by
  refine ⟨?_, rfl, ?_, rfl⟩ <;> simp [get_extensions_settings, himp, hok_l, hok_w]

/-- C10 witness: on the healthy concrete environment the Linux descriptor
nests the torch include list while the Windows descriptor flattens it. -/
theorem C10_include_dir_shape_witness :
    (linux_extension st_good (fs_sample.cpu_sources ++ fs_sample.cuda_sources)).include_dirs =
      [IncludeEntry.single SRC_BASE_STR, IncludeEntry.nested ["/torch/include"]] ∧
    (windows_extension st_good (fs_sample.cpu_sources ++ fs_sample.cuda_sources)).include_dirs =
      [IncludeEntry.single SRC_BASE_RESOLVED, IncludeEntry.single "/torch/include"] :=
  ⟨((C10_include_dir_shape st_good fs_sample rfl (by decide) (by decide)).2.1),
   ((C10_include_dir_shape st_good fs_sample rfl (by decide) (by decide)).2.2.2)⟩

/-- C1 counterexample: on Linux with no accelerator device, resolve does
raise, but the error carries only the fixed assert message — not the
per-check reason.  Neither the raised message nor the printed diagnostic
contains "no accelerator device"; the diagnostic is printed, not attached to
the error. -/
theorem C1_counterexample :
    (get_extensions_settings "Linux" st_no_device fs_sample).result =
      Except.error (BuildError.assertionError ASSERT_MSG) ∧
    strContains ASSERT_MSG "no accelerator device" = false ∧
    (verify_cuda_environment "Linux" st_no_device).printed = [MSG_NO_CUDA] ∧
    strContains MSG_NO_CUDA "no accelerator device" = false :=
  ⟨rfl, by decide, by decide, by decide⟩

/-- C1 (amended): on Linux/Windows with an importable runtime, when
verification returns ok=false, resolve raises a single abort error whose
message is the fixed assert string; the per-check diagnostic is only printed
by the verifier. -/
theorem C1_abort_fixed_message (system : String) (st : RuntimeState) (fs : SourceTree)
    (_hsys : system = "Linux" ∨ system = "Windows")
    (himp : st.torch_importable = true)
    (hok : (verify_cuda_environment system st).ok = false) :
    (get_extensions_settings system st fs).result =
      Except.error (BuildError.assertionError ASSERT_MSG) := by
  simp [get_extensions_settings, himp, hok]

/-- C1 witness: the amended theorem at the Linux no-device environment. -/
theorem C1_abort_fixed_message_witness :
    (get_extensions_settings "Linux" st_no_device fs_sample).result =
      Except.error (BuildError.assertionError ASSERT_MSG) :=
  C1_abort_fixed_message "Linux" st_no_device fs_sample (Or.inl rfl) rfl (by decide)

/-- C2 counterexample: on Darwin with a healthy runtime and one CPU source
file, resolve does invoke the verifier, and raises an `AttributeError`
instead of returning a descriptor. -/
theorem C2_counterexample :
    (get_extensions_settings "Darwin" st_good fs_sample).verifier_invoked = true ∧
    (get_extensions_settings "Darwin" st_good fs_sample).result =
      Except.error (BuildError.attributeError ATTR_MSG) :=
  ⟨rfl, rfl⟩

/-- C2 (amended): on Darwin with an importable runtime, resolve does invoke
the verifier, which soft-passes with a result independent of the runtime
state; with an empty CPU source set it returns the CPU-only descriptor with
`usesAccelerator = false`, and with a non-empty CPU source set it raises an
`AttributeError` instead of returning a descriptor. -/
theorem C2_darwin_amended (st : RuntimeState) (fs : SourceTree)
    (himp : st.torch_importable = true) :
    (get_extensions_settings "Darwin" st fs).verifier_invoked = true ∧
    verify_cuda_environment "Darwin" st = ⟨true, [MSG_UNSUPPORTED "Darwin"]⟩ ∧
    (fs.cpu_sources = [] →
      (get_extensions_settings "Darwin" st fs).result = Except.ok [darwin_extension] ∧
      darwin_extension.usesAccelerator = false) ∧
    (fs.cpu_sources ≠ [] →
      (get_extensions_settings "Darwin" st fs).result =
        Except.error (BuildError.attributeError ATTR_MSG)) := by
  have hv : verify_cuda_environment "Darwin" st = ⟨true, [MSG_UNSUPPORTED "Darwin"]⟩ := by
    simp [verify_cuda_environment]
  obtain ⟨cpu, cuda⟩ := fs
  cases cpu with
  | nil =>
    exact ⟨by simp [get_extensions_settings, himp, hv], hv,
      fun _ => ⟨by simp [get_extensions_settings, himp, hv], rfl⟩,
      fun hcpu => absurd rfl hcpu⟩
  | cons p ps =>
    exact ⟨by simp [get_extensions_settings, himp, hv], hv,
      fun hcpu => by simp at hcpu,
      fun _ => by simp [get_extensions_settings, himp, hv]⟩

/-- C2 witness: the amended theorem at the healthy runtime, with and without
CPU sources. -/
theorem C2_darwin_amended_witness :
    (get_extensions_settings "Darwin" st_good fs_no_cpu).result =
      Except.ok [darwin_extension] ∧
    darwin_extension.usesAccelerator = false :=
  (C2_darwin_amended st_good fs_no_cpu rfl).2.2.1 rfl

/-- C4 counterexample: on a platform outside Linux/Windows/Darwin with an
unimportable runtime, resolve raises an `ImportError` (from the
`torch.utils.cpp_extension` import at the top) instead of returning the
empty descriptor. -/
theorem C4_counterexample :
    (get_extensions_settings "FreeBSD" st_no_torch fs_sample).result =
      Except.error BuildError.importError ∧
    (get_extensions_settings "FreeBSD" st_no_torch fs_sample).result ≠ Except.ok [] :=
  ⟨rfl, by decide⟩

/-- C4 (amended): for every platform outside Linux/Windows/Darwin, when the
runtime library is importable, resolve returns the empty extension list and
raises nothing; when the import fails, resolve raises before verification. -/
theorem C4_other_platform_empty (system : String) (st : RuntimeState) (fs : SourceTree)
    (h1 : system ≠ "Windows") (h2 : system ≠ "Linux") (h3 : system ≠ "Darwin")
    (himp : st.torch_importable = true) :
    (get_extensions_settings system st fs).result = Except.ok [] := by
  have hc : (system != "Windows" && system != "Linux") = true := by
    simp [bne_iff_ne, h1, h2]
  have hv : verify_cuda_environment system st = ⟨true, [MSG_UNSUPPORTED system]⟩ := by
    simp [verify_cuda_environment, hc]
  simp [get_extensions_settings, himp, hv,
    beq_false_of_ne h1, beq_false_of_ne h2, beq_false_of_ne h3]

/-- C4 witness: a healthy runtime on FreeBSD yields the empty descriptor. -/
theorem C4_other_platform_empty_witness :
    (get_extensions_settings "FreeBSD" st_good fs_sample).result = Except.ok [] :=
  C4_other_platform_empty "FreeBSD" st_good fs_sample
    (by decide) (by decide) (by decide) rfl

/-- C9: on Darwin, whenever the CPU source directory holds at least one
`.cpp` file, resolve raises rather than returning a descriptor — and, as soon
as the torch import succeeds, specifically the `AttributeError` from applying
`Path.relative_to` to the relative-path strings produced by `rel`.  A
descriptor is returned only when the CPU source set is empty, and then it
carries empty sources. -/
theorem C9_darwin_relative_to_raises (st : RuntimeState) (fs : SourceTree) :
    (fs.cpu_sources ≠ [] →
      ∃ e, (get_extensions_settings "Darwin" st fs).result = Except.error e) ∧
    (fs.cpu_sources ≠ [] → st.torch_importable = true →
      (get_extensions_settings "Darwin" st fs).result =
        Except.error (BuildError.attributeError ATTR_MSG)) ∧
    (∀ exts, (get_extensions_settings "Darwin" st fs).result = Except.ok exts →
      fs.cpu_sources = [] ∧ exts = [darwin_extension] ∧ darwin_extension.sources = []) := by
  cases himp : st.torch_importable with
  | false =>
    refine ⟨fun _ => ⟨BuildError.importError, ?_⟩, fun _ h => ?_, fun exts h => ?_⟩
    · simp [get_extensions_settings, himp]
    · exact absurd h (by decide)
    · simp [get_extensions_settings, himp] at h
  | true =>
    have hv : verify_cuda_environment "Darwin" st = ⟨true, [MSG_UNSUPPORTED "Darwin"]⟩ := by
      simp [verify_cuda_environment]
    obtain ⟨cpu, cuda⟩ := fs
    cases cpu with
    | nil =>
      refine ⟨fun h => absurd rfl h, fun h => absurd rfl h, fun exts h => ?_⟩
      refine ⟨rfl, ?_, rfl⟩
      simpa [get_extensions_settings, himp, hv] using h.symm
    | cons p ps =>
      refine ⟨fun _ => ⟨BuildError.attributeError ATTR_MSG, ?_⟩, fun _ _ => ?_,
        fun exts h => ?_⟩
      · simp [get_extensions_settings, himp, hv]
      · simp [get_extensions_settings, himp, hv]
      · simp [get_extensions_settings, himp, hv] at h

/-- C9 witness: the healthy Darwin environment with one CPU source raises the
`AttributeError`. -/
theorem C9_darwin_relative_to_raises_witness :
    (get_extensions_settings "Darwin" st_mismatch fs_sample).result =
      Except.error (BuildError.attributeError ATTR_MSG) :=
  (C9_darwin_relative_to_raises st_mismatch fs_sample).2.1 (by decide) rfl

end Trackformer
